import Mathlib

/-!
Shallow embedding of the RENCI-NER/benchmarks repository: the rank/statistics
helpers and row-processing loop of benchmark/cli.py, the continuation cache and
row-processing loop of comparator/cli.py, and the two service adapters
comparator/engines/nameres.py and comparator/engines/sapbert.py.

Remote HTTP traffic is modelled by passing each adapter a function from the
request record it builds to the response it receives; wall-clock time fields
(the *_time_sec columns) are real-time measurements and are left out of the
embedded output rows.
-/

namespace NERBench

/-- Model of Python str.lower(): lowercase every character.  (Python lowercases
the full Unicode range; the benchmark data is ASCII, where Char.toLower
agrees.) -/
def lowerStr (s : String) : String :=
  String.mk (s.data.map Char.toLower)

/-- Model of Python str.strip(): drop whitespace from both ends. -/
def pyStrip (s : String) : String :=
  String.mk (((s.data.dropWhile Char.isWhitespace).reverse.dropWhile Char.isWhitespace).reverse)

/-- benchmark/cli.py rank_str_in_list: items.index(query) + 1, or None when
items.index raises ValueError (query absent).  list.index returns the index of
the first occurrence. -/
def rank_str_in_list (query : String) (items : List String) : Option Nat :=
  match items with
  | [] => none
  | x :: xs => if x = query then some 1 else (rank_str_in_list query xs).map (fun r => r + 1)

/-- Round-half-even of 1000*a/b (b nonzero): the third-decimal rounding that
Python float formatting applies.  Exact integer arithmetic; this matches
f-string .3f output of float(a)/b whenever the double computation is exact,
which holds for the count/rank magnitudes this program produces. -/
def div3dec (a b : Nat) : Nat :=
  let q := (1000 * a) / b
  let r := (1000 * a) % b
  if 2 * r < b then q
  else if b < 2 * r then q + 1
  else if q % 2 = 0 then q else q + 1

/-- Three zero-padded decimal digits of m (m < 1000), as written by .3f
formatting for the fractional part. -/
def pad3 (m : Nat) : String :=
  String.mk [Nat.digitChar (m / 100 % 10), Nat.digitChar (m / 10 % 10), Nat.digitChar (m % 10)]

/-- The .3f rendering of float(n)/d for d nonzero: optional sign (Python
produces a signed zero, hence the n = 0 case looks at d), integer part, dot,
three fractional digits. -/
def format3 (n d : Int) : String :=
  let neg : Bool := if n = 0 then decide (d < 0) else xor (decide (n < 0)) (decide (d < 0))
  let m := div3dec n.natAbs d.natAbs
  (if neg then "-" ++ toString (m / 1000) else toString (m / 1000)) ++ "." ++ pad3 (m % 1000)

/-- benchmark/cli.py divide_to_str: guard d == 0 with an NA display, otherwise
format float(n)/d to three decimals; both branches echo the raw pair. -/
def divide_to_str (n d : Int) : String :=
  if d = 0 then "NA (" ++ toString n ++ "/" ++ toString d ++ ")"
  else format3 n d ++ " (" ++ toString n ++ "/" ++ toString d ++ ")"

/-- The type-hint values treated as null by both CLIs (benchmark/cli.py line
102, comparator/cli.py line 200). -/
def nullTypeStrings : List String :=
  ["na", "none", "entity", "biolink:entity", "namedthing", "biolink:namedthing"]

/-- Whether a provided type string normalizes to the empty type hint:
membership of its stripped, lowercased form in nullTypeStrings. -/
def isNullType (t : String) : Bool :=
  nullTypeStrings.contains (lowerStr (pyStrip t))

/-- The uniform result shape both adapters build per response item.  score and
the nameres clique count are JSON scalars only ever echoed into output rows;
they are carried as opaque strings.  label is Option to keep the distinction
between a missing and an empty label visible to the callers that use
dict.get with a default. -/
structure Ann where
  text : String
  span_begin : Nat
  span_end : Nat
  id : String
  label : Option String
  biolink_type : String
  score : String
  clique_identifier_count : Option String := none
deriving DecidableEq

/-- The props dict passed to annotate.  Only the biolink_type and skip_umls
keys are ever read; an absent key reads as its default here. -/
structure Props where
  biolink_type : String := ""
  skip_umls : Bool := false
deriving DecidableEq

/-- One JSON record of a NameRes lookup response; every field is read with
dict.get and a default. -/
structure NRResult where
  curie : Option String := none
  label : Option String := none
  types : List String := []
  score : Option String := none
  clique_identifier_count : Option String := none
deriving DecidableEq

/-- An HTTP response from NameRes: the ok flag and the decoded JSON body. -/
structure NRResponse where
  ok : Bool
  results : List NRResult
deriving DecidableEq

/-- The query parameters nameres.py line 26 builds for the lookup GET. -/
structure NRRequest where
  autocomplete : String
  offset : Nat
  limit : Nat
  string : String
  biolink_type : String
  exclude_prefixes : Option String
deriving DecidableEq

/-- comparator/engines/nameres.py lines 19-36: the request record built from
the annotate arguments.  The limit argument is forwarded verbatim. -/
def nameres_request (text : String) (props : Props) (limit : Nat) : NRRequest :=
  { autocomplete := "false"
    offset := 0
    limit := limit
    string := text
    biolink_type := props.biolink_type
    exclude_prefixes := if props.skip_umls then some "UMLS" else none }

/-- nameres.py lines 46-67: map one response record to the uniform shape.  A
record with no types list falls back to biolink:NamedThing, otherwise the
first listed type is used. -/
def nrToAnn (text : String) (r : NRResult) : Ann :=
  { text := text
    span_begin := 0
    span_end := text.length
    id := r.curie.getD ""
    label := some (r.label.getD "")
    biolink_type := match r.types with
      | [] => "biolink:NamedThing"
      | t :: _ => t
    score := r.score.getD ""
    clique_identifier_count := some (r.clique_identifier_count.getD "") }

/-- NameResNEREngine.annotate: build the request, perform the GET (modelled by
the http oracle), raise RuntimeError on a non-ok response (Except.error),
otherwise map every response record. -/
def nameres_annotate (text : String) (props : Props) (limit : Nat)
    (http : NRRequest → NRResponse) : Except String (List Ann) :=
  let resp := http (nameres_request text props limit)
  if resp.ok then Except.ok (resp.results.map (nrToAnn text))
  else Except.error "Could not contact NameRes"

/-- sapbert.py line 13: the fixed result count requested from SAPBERT. -/
def SAPBERT_COUNT : Nat := 1000

/-- One JSON record of a SAPBERT annotate response. -/
structure SapResult where
  curie : Option String := none
  name : Option String := none
  score : Option String := none
deriving DecidableEq

/-- An HTTP response from SAPBERT. -/
structure SapResponse where
  ok : Bool
  results : List SapResult
deriving DecidableEq

/-- The JSON body sapbert.py line 36 posts to the annotate endpoint. -/
structure SapRequest where
  text : String
  model_name : String
  count : Nat
  bl_type : String
deriving DecidableEq

/-- sapbert.py lines 29-43: the posted request.  A nonempty type hint gains
the biolink: namespace when missing; the count is the fixed SAPBERT_COUNT, and
the annotate limit argument appears nowhere in the request. -/
def sapbert_request (text : String) (props : Props) : SapRequest :=
  let bt := props.biolink_type
  let bt := if bt ≠ "" && !(bt.startsWith "biolink:") then "biolink:" ++ bt else bt
  { text := text, model_name := "sapbert", count := SAPBERT_COUNT, bl_type := bt }

/-- sapbert.py lines 54-67: map one response record to the uniform shape. -/
def sapToAnn (text : String) (r : SapResult) : Ann :=
  { text := text
    span_begin := 0
    span_end := text.length
    id := r.curie.getD ""
    label := some (r.name.getD "")
    biolink_type := ""
    score := r.score.getD "" }

/-- SAPBERTNEREngine.annotate: post the request (modelled by the http oracle),
raise RuntimeError on a non-ok response, otherwise map every response record;
the limit argument is accepted and ignored. -/
def sapbert_annotate (text : String) (props : Props) (limit : Nat)
    (http : SapRequest → SapResponse) : Except String (List Ann) :=
  let resp := http (sapbert_request text props)
  if resp.ok then Except.ok (resp.results.map (sapToAnn text))
  else Except.error "Server error from SAPBERT"

/-- The try/except around each annotate call (benchmark/cli.py lines 129-134
and the three like it): the results variable is initialised to the empty list
and keeps that value when annotate raises. -/
def resultsOf (e : Except String (List Ann)) : List Ann :=
  match e with
  | Except.ok l => l
  | Except.error _ => []

/-- benchmark/cli.py line 24. -/
def RESULTS_TO_DOWNLOAD : Nat := 10

/-- benchmark/model/benchmark.py: one spreadsheet test case.  The Python
field named Type is called Typ here because Type is a Lean keyword. -/
structure Benchmark where
  Query : String
  Source : String
  Typ : String
  CorrectType : String
  CorrectID : String
  CorrectLabel : String
  Notes : List (String × String)
deriving DecidableEq

/-- A record of one annotate invocation: which engine, the text, the
biolink_type value carried in props, and the limit argument. -/
structure EngineCall where
  engine : String
  text : String
  biolink_type : String
  limit : Nat
deriving DecidableEq

/-- The non-time fields of one output CSV row of the benchmark tool.  A rank
of none is the not-found sentinel written as an empty cell. -/
structure BenchOut where
  query : String
  source : String
  provided_type : String
  queried_type : String
  correct_type : String
  correct_id : String
  correct_label : String
  notes : String
  nameres_id_rank : Option Nat
  nameres_label_rank : Option Nat
  nameres_no_type_id_rank : Option Nat
  nameres_no_type_label_rank : Option Nat
  sapbert_id_rank : Option Nat
  sapbert_label_rank : Option Nat
  sapbert_no_type_id_rank : Option Nat
  sapbert_no_type_label_rank : Option Nat
deriving DecidableEq

/-- benchmark/cli.py lines 101-106: null-like provided types become the empty
hint, and --skip-types forces the empty hint. -/
def benchQueriedType (skip_types : Bool) (b : Benchmark) : String :=
  let t := if isNullType b.Typ then "" else b.Typ
  if skip_types then "" else t

/-- benchmark/cli.py lines 139-140: the identifier rank of a result list, by
exact comparison against each result id. -/
def idRankOf (correct : String) (results : List Ann) : Option Nat :=
  rank_str_in_list correct (results.map Ann.id)

/-- benchmark/cli.py lines 145-146: the label rank, with the expected label
and every result label (missing label read as the empty string) lowercased
before comparison. -/
def labelRankOf (correctLabel : String) (results : List Ann) : Option Nat :=
  rank_str_in_list (lowerStr correctLabel) (results.map (fun nr => lowerStr (nr.label.getD "")))

/-- benchmark/cli.py lines 109-112 and 123: the notes column. -/
def benchNotes (b : Benchmark) : String :=
  String.intercalate ";" ((b.Notes.filter (fun kv => kv.2 ≠ "")).map (fun kv => kv.1 ++ ": " ++ kv.2))

/-- The NameRes result list the benchmark loop obtains for a row, with or
without the type hint (lines 130 and 157); an untyped call passes an empty
props dict, whose biolink_type reads as the empty string. -/
def benchNrResults (skip_types : Bool) (b : Benchmark) (withType : Bool)
    (nrHttp : NRRequest → NRResponse) : List Ann :=
  resultsOf (nameres_annotate b.Query
    { biolink_type := if withType then benchQueriedType skip_types b else "" }
    RESULTS_TO_DOWNLOAD nrHttp)

/-- The SAPBERT result list the benchmark loop obtains for a row (lines 183
and 210). -/
def benchSpResults (skip_types : Bool) (b : Benchmark) (withType : Bool)
    (spHttp : SapRequest → SapResponse) : List Ann :=
  resultsOf (sapbert_annotate b.Query
    { biolink_type := if withType then benchQueriedType skip_types b else "" }
    RESULTS_TO_DOWNLOAD spHttp)

/-- The outcome of one iteration of the benchmark loop: the written row when
the row is not skipped, and the annotate calls issued. -/
structure BenchStep where
  written : Option BenchOut
  calls : List EngineCall
deriving DecidableEq

/-- One iteration of the benchmark main loop (benchmark/cli.py lines 91-231):
skip rows with no query or with neither a correct id nor a correct label;
otherwise issue the four annotate calls and assemble the output row. -/
def benchRowStep (skip_types : Bool) (b : Benchmark)
    (nrHttp : NRRequest → NRResponse) (spHttp : SapRequest → SapResponse) : BenchStep :=
  if b.Query = "" then { written := none, calls := [] }
  else if b.CorrectID = "" && b.CorrectLabel = "" then { written := none, calls := [] }
  else
    let text := b.Query
    let text_type := benchQueriedType skip_types b
    let nrT := benchNrResults skip_types b true nrHttp
    let nrU := benchNrResults skip_types b false nrHttp
    let spT := benchSpResults skip_types b true spHttp
    let spU := benchSpResults skip_types b false spHttp
    { written := some
        { query := b.Query
          source := b.Source
          provided_type := b.Typ
          queried_type := text_type
          correct_type := b.CorrectType
          correct_id := b.CorrectID
          correct_label := b.CorrectLabel
          notes := benchNotes b
          nameres_id_rank := idRankOf b.CorrectID nrT
          nameres_label_rank := labelRankOf b.CorrectLabel nrT
          nameres_no_type_id_rank := idRankOf b.CorrectID nrU
          nameres_no_type_label_rank := labelRankOf b.CorrectLabel nrU
          sapbert_id_rank := idRankOf b.CorrectID spT
          sapbert_label_rank := labelRankOf b.CorrectLabel spT
          sapbert_no_type_id_rank := idRankOf b.CorrectID spU
          sapbert_no_type_label_rank := labelRankOf b.CorrectLabel spU }
      calls :=
        [ { engine := "nameres", text := text, biolink_type := text_type, limit := RESULTS_TO_DOWNLOAD }
        , { engine := "nameres", text := text, biolink_type := "", limit := RESULTS_TO_DOWNLOAD }
        , { engine := "sapbert", text := text, biolink_type := text_type, limit := RESULTS_TO_DOWNLOAD }
        , { engine := "sapbert", text := text, biolink_type := "", limit := RESULTS_TO_DOWNLOAD } ] }

/-- The whole benchmark run over its row list: one BenchStep per row, each row
with the responses the services give it.  The loop never aborts; a failing
service only empties that result list. -/
def benchRun (skip_types : Bool)
    (rows : List (Benchmark × (NRRequest → NRResponse) × (SapRequest → SapResponse))) : List BenchStep :=
  rows.map (fun t => benchRowStep skip_types t.1 t.2.1 t.2.2)

/-- The defaultdict(int) of benchmark/cli.py line 85, with one field per key
the loop and the summary ever touch. -/
structure Stats where
  nameres_total_id_rank : Nat := 0
  nameres_count_id_rank : Nat := 0
  nameres_total_label_rank : Nat := 0
  nameres_count_label_rank : Nat := 0
  nameres_no_type_total_id_rank : Nat := 0
  nameres_no_type_count_id_rank : Nat := 0
  nameres_no_type_total_label_rank : Nat := 0
  nameres_no_type_count_label_rank : Nat := 0
  sapbert_total_id_rank : Nat := 0
  sapbert_count_id_rank : Nat := 0
  sapbert_total_label_rank : Nat := 0
  sapbert_count_label_rank : Nat := 0
  sapbert_no_type_total_id_rank : Nat := 0
  sapbert_no_type_count_id_rank : Nat := 0
  sapbert_no_type_total_label_rank : Nat := 0
  sapbert_no_type_count_label_rank : Nat := 0
deriving DecidableEq

/-- Python truthiness of a rank cell: None and 0 are falsy. -/
def truthy (o : Option Nat) : Bool :=
  match o with
  | none => false
  | some n => n ≠ 0

/-- The eight guarded accumulator updates the benchmark loop performs for one
written row (benchmark/cli.py lines 141-143, 147-149, 166-168, 172-174,
194-196, 200-202, 219-221, 225-227). -/
def benchStatsUpdate (stats : Stats) (out : BenchOut) : Stats :=
  let stats := if truthy out.nameres_id_rank then
    { stats with nameres_total_id_rank := stats.nameres_total_id_rank + out.nameres_id_rank.getD 0,
                 nameres_count_id_rank := stats.nameres_count_id_rank + 1 } else stats
  let stats := if truthy out.nameres_label_rank then
    { stats with nameres_total_label_rank := stats.nameres_total_label_rank + out.nameres_label_rank.getD 0,
                 nameres_count_label_rank := stats.nameres_count_label_rank + 1 } else stats
  let stats := if truthy out.nameres_no_type_id_rank then
    { stats with nameres_no_type_total_id_rank := stats.nameres_no_type_total_id_rank + out.nameres_no_type_id_rank.getD 0,
                 nameres_no_type_count_id_rank := stats.nameres_no_type_count_id_rank + 1 } else stats
  let stats := if truthy out.nameres_no_type_label_rank then
    { stats with nameres_no_type_total_label_rank := stats.nameres_no_type_total_label_rank + out.nameres_no_type_label_rank.getD 0,
                 nameres_no_type_count_label_rank := stats.nameres_no_type_count_label_rank + 1 } else stats
  let stats := if truthy out.sapbert_id_rank then
    { stats with sapbert_total_id_rank := stats.sapbert_total_id_rank + out.sapbert_id_rank.getD 0,
                 sapbert_count_id_rank := stats.sapbert_count_id_rank + 1 } else stats
  let stats := if truthy out.sapbert_label_rank then
    { stats with sapbert_total_label_rank := stats.sapbert_total_label_rank + out.sapbert_label_rank.getD 0,
                 sapbert_count_label_rank := stats.sapbert_count_label_rank + 1 } else stats
  let stats := if truthy out.sapbert_no_type_id_rank then
    { stats with sapbert_no_type_total_id_rank := stats.sapbert_no_type_total_id_rank + out.sapbert_no_type_id_rank.getD 0,
                 sapbert_no_type_count_id_rank := stats.sapbert_no_type_count_id_rank + 1 } else stats
  if truthy out.sapbert_no_type_label_rank then
    { stats with sapbert_no_type_total_label_rank := stats.sapbert_no_type_total_label_rank + out.sapbert_no_type_label_rank.getD 0,
                 sapbert_no_type_count_label_rank := stats.sapbert_no_type_count_label_rank + 1 } else stats

/-- The twenty lines printed at benchmark/cli.py lines 237-256, in order.  The
SAPBERT lines of the two Average blocks (source lines 250, 251, 255 and 256)
read the nameres accumulators, exactly as the source does. -/
def benchSummary (stats : Stats) (benchmark_count : Nat) : List String :=
  [ "Ranked ID results:"
  , "\tNameRes: " ++ divide_to_str stats.nameres_count_id_rank benchmark_count
  , "\tNameRes without type: " ++ divide_to_str stats.nameres_no_type_count_id_rank benchmark_count
  , "\tSAPBERT: " ++ divide_to_str stats.sapbert_count_id_rank benchmark_count
  , "\tSAPBERT without type: " ++ divide_to_str stats.sapbert_no_type_count_id_rank benchmark_count
  , "Ranked label results:"
  , "\tNameRes: " ++ divide_to_str stats.nameres_count_label_rank benchmark_count
  , "\tNameRes without type: " ++ divide_to_str stats.nameres_no_type_count_label_rank benchmark_count
  , "\tSAPBERT: " ++ divide_to_str stats.sapbert_count_label_rank benchmark_count
  , "\tSAPBERT without type: " ++ divide_to_str stats.sapbert_no_type_count_label_rank benchmark_count
  , "Average ID rank:"
  , "\tNameRes: " ++ divide_to_str stats.nameres_total_id_rank stats.nameres_count_id_rank
  , "\tNameRes without type: " ++ divide_to_str stats.nameres_no_type_total_id_rank stats.nameres_no_type_count_id_rank
  , "\tSAPBERT: " ++ divide_to_str stats.nameres_total_id_rank stats.nameres_count_id_rank
  , "\tSAPBERT without type: " ++ divide_to_str stats.nameres_no_type_total_id_rank stats.nameres_no_type_count_id_rank
  , "Average label rank:"
  , "\tNameRes: " ++ divide_to_str stats.nameres_total_label_rank stats.nameres_count_label_rank
  , "\tNameRes without type: " ++ divide_to_str stats.nameres_no_type_total_label_rank stats.nameres_no_type_count_label_rank
  , "\tSAPBERT: " ++ divide_to_str stats.nameres_total_label_rank stats.nameres_count_label_rank
  , "\tSAPBERT without type: " ++ divide_to_str stats.nameres_no_type_total_label_rank stats.nameres_no_type_count_label_rank ]

/-- A CSV row as csv.DictReader yields it: an association list with distinct
keys, in column order. -/
abbrev CRow := List (String × String)

/-- Reading row[k] (or row.get(k)): the value at the first matching key. -/
def lookupField (k : String) (row : CRow) : Option String :=
  (row.find? (fun kv => kv.1 == k)).map (fun kv => kv.2)

/-- Assigning row[k] = v on a dict: replace the value in place when the key
exists (keys are distinct, so mapping over all entries replaces just it),
append the pair otherwise. -/
def setField (row : CRow) (k v : String) : CRow :=
  if (row.find? (fun kv => kv.1 == k)).isSome then
    row.map (fun kv => if kv.1 == k then (k, v) else kv)
  else row ++ [(k, v)]

/-- comparator/cli.py lines 141-149: the continuation cache, built by one pass
over the continuation rows; a row without the query column is ignored, and a
later row overwrites an earlier one under the same query text. -/
def buildCache (q : String) (rows : List CRow) : String → Option CRow :=
  rows.foldl
    (fun cache row =>
      match lookupField q row with
      | none => cache
      | some v => fun k => if k = v then some row else cache k)
    (fun _ => none)

/-- comparator/cli.py lines 47-137: the manually curated free-text-type to
Biolink-type table, in source order. -/
def llm_type_mappings : List (String × String) :=
  [ ("Anatomical Entity", "AnatomicalEntity")
  , ("anatomical entity", "AnatomicalEntity")
  , ("Anatomical Entity/Biological Process", "AnatomicalEntity")
  , ("Anatomical entity", "AnatomicalEntity")
  , ("Biological Process", "BiologicalProcess")
  , ("Biological entity", "BiologicalEntity")
  , ("Biological process", "BiologicalProcess")
  , ("biological process", "BiologicalProcess")
  , ("Cell", "Cell")
  , ("cell", "Cell")
  , ("Cell line", "CellLine")
  , ("Chemical", "ChemicalEntity")
  , ("chemical", "ChemicalEntity")
  , ("Disease", "Disease")
  , ("disease", "Disease")
  , ("Disease/Phenotype", "DiseaseOrPhenotypicFeature")
  , ("Gene", "Gene")
  , ("gene", "Gene")
  , ("Gene/Protein", "GeneOrGeneProduct")
  , ("Protein and Gene", "GeneOrGeneProduct")
  , ("Protein", "Protein")
  , ("protein", "Protein")
  , ("Phenotype", "PhenotypicFeature")
  , ("phenotype", "PhenotypicFeature")
  , ("Physiological Process", "PhysiologicalProcess")
  , ("Physiological process", "PhysiologicalProcess")
  , ("physiological process", "PhysiologicalProcess")
  , ("cohort", "Cohort")
  , ("device", "Device")
  , ("procedure", "Procedure")
  , ("Behavior, Disease", "DiseaseOrPhenotypicFeature")
  , ("Biological process, Phenotype, Disease", "DiseaseOrPhenotypicFeature")
  , ("Event, Sequence variant", "SequenceVariant")
  , ("Phenotype, Biological Process, Phenotype", "PhenotypicFeature")
  , ("Phenotype, Chemical, Protein, Protein", "PhenotypicFeature")
  , ("Phenotype, Protein, Biological process, Protein", "PhenotypicFeature")
  , ("Procedure, Chemical, Chemical, Chemical, Treatment", "ChemicalOrDrugOrTreatment")
  , ("Procedure, Device, Other", "Device")
  , ("Protein, Chemical, Biological Process", "ChemicalOrDrugOrTreatment")
  , ("Treatment, Event, Behavior", "ChemicalOrDrugOrTreatment")
  , ("Behavior", "Behavior")
  , ("behavior", "Behavior")
  , ("Behavior and Disease", "BiologicalEntity")
  , ("Behavior and Phenotype", "BiologicalEntity")
  , ("Biological process and Chemical", "BiologicalEntity")
  , ("Biological process/Disease", "BiologicalEntity")
  , ("Chemical and Protein", "Protein")
  , ("Chemical/Treatment", "ChemicalOrDrugOrTreatment")
  , ("Cognitive Process", "BiologicalProcess")
  , ("Cohort", "Cohort")
  , ("Device", "Device")
  , ("Device and Protein", "Protein")
  , ("Device/Procedure", "Procedure")
  , ("Disease and Phenotype", "DiseaseOrPhenotypicFeature")
  , ("Disease and Physiological Process", "BiologicalProcess")
  , ("Disease/Behavior", "BiologicalEntity")
  , ("Enzyme", "Protein")
  , ("Event", "Event")
  , ("event", "Event")
  , ("Event and Behavior", "Event")
  , ("Food", "ChemicalEntity")
  , ("Food and Chemical", "ChemicalEntity")
  , ("Food/Behavior", "ChemicalEntity")
  , ("Pathway", "Pathway")
  , ("Procedure", "Procedure")
  , ("Time", "Event")
  , ("treatment", "Treatment")
  , ("Treatment", "Treatment")
  , ("Sequence Variant", "SequenceVariant")
  , ("Sequence Variant/Mutation", "SequenceVariant")
  , ("Mutation", "SequenceVariant")
  , ("mutation", "SequenceVariant")
  , ("Sequence variant", "SequenceVariant")
  , ("sequence variant", "SequenceVariant")
  , ("Measurement", "ClinicalMeasurement")
  , ("Organism", "OrganismTaxon")
  , ("organism", "OrganismTaxon")
  , ("Organization", "Agent")
  , ("Phenomenon", "Phenomenon")
  , ("Procedure/Behavior", "ActivityAndBehavior")
  , ("mRNA", "GeneProductMixin")
  , ("phenomenon", "Phenomenon")
  , ("other", "")
  , ("Other", "")
  , ("Other/Disease", "Disease")
  , ("Location", "")
  , ("Device and Cohort", "") ]

/-- llm_type_mappings.get(t): first match in the table. -/
def llmLookup (t : String) : Option String :=
  (llm_type_mappings.find? (fun kv => kv.1 == t)).map (fun kv => kv.2)

/-- comparator/cli.py lines 216-220 and the three like it: when the result
list is nonempty, copy the head result's fields into the row under the given
column-name stem.  The engines set a label on every annotation, so reading it
with a default is the direct dict access the source performs. -/
def setEngineResult (row : CRow) (p : String) (results : List Ann) : CRow :=
  match results with
  | [] => row
  | a :: _ =>
    let row := setField row (p ++ "_id") a.id
    let row := setField row (p ++ "_label") (a.label.getD "")
    let row := setField row (p ++ "_type") a.biolink_type
    setField row (p ++ "_score") a.score

/-- The outcome of one iteration of the comparator loop. -/
structure CompStep where
  written : Option CRow
  calls : List EngineCall
deriving DecidableEq

/-- One iteration of the comparator main loop (comparator/cli.py lines
185-278): skip rows without the query column; emit a cached row unchanged and
make no calls; skip rows without the type column; otherwise normalize the type
hint, map it through the LLM table, issue the four annotate calls in source
order, and extend the input row with the head results. -/
def comparatorStep (q bt : String) (cache : String → Option CRow) (row : CRow)
    (nrHttp : NRRequest → NRResponse) (spHttp : SapRequest → SapResponse) : CompStep :=
  match lookupField q row with
  | none => { written := none, calls := [] }
  | some text =>
    match cache text with
    | some cached => { written := some cached, calls := [] }
    | none =>
      match lookupField bt row with
      | none => { written := none, calls := [] }
      | some tt0 =>
        let tt1 := if isNullType tt0 then "" else tt0
        let text_type := (llmLookup tt1).getD ""
        let nrT := resultsOf (nameres_annotate text { biolink_type := text_type } 10 nrHttp)
        let nrU := resultsOf (nameres_annotate text {} 10 nrHttp)
        let spU := resultsOf (sapbert_annotate text {} 10 spHttp)
        let spT := resultsOf (sapbert_annotate text { biolink_type := text_type } 10 spHttp)
        let row := setEngineResult row "nameres" nrT
        let row := setEngineResult row "nameres_no_type" nrU
        let row := setEngineResult row "sapbert_no_type" spU
        let row := setEngineResult row "sapbert" spT
        { written := some row
          calls :=
            [ { engine := "nameres", text := text, biolink_type := text_type, limit := 10 }
            , { engine := "nameres", text := text, biolink_type := "", limit := 10 }
            , { engine := "sapbert", text := text, biolink_type := "", limit := 10 }
            , { engine := "sapbert", text := text, biolink_type := text_type, limit := 10 } ] }

/-- A NameRes oracle answering every request with an HTTP failure. -/
def nrFailHttp : NRRequest → NRResponse :=
  fun _ => { ok := false, results := [] }

/-- A SAPBERT oracle answering every request with an HTTP failure. -/
def spFailHttp : SapRequest → SapResponse :=
  fun _ => { ok := false, results := [] }

/-- A SAPBERT oracle answering every request with two results. -/
def spTwoHttp : SapRequest → SapResponse :=
  fun _ => { ok := true, results :=
    [ { curie := some "CHEBI:1", name := some "one", score := some "0.9" }
    , { curie := some "CHEBI:2", name := some "two", score := some "0.8" } ] }

/-- A concrete benchmark row used to instantiate theorems. -/
def bAspirin : Benchmark :=
  { Query := "aspirin", Source := "manual", Typ := "Chemical", CorrectType := "ChemicalEntity"
  , CorrectID := "CHEBI:15365", CorrectLabel := "aspirin", Notes := [] }

/-- A benchmark row whose provided type is the null-like value NA. -/
def bNullType : Benchmark :=
  { Query := "aspirin", Source := "manual", Typ := "NA", CorrectType := ""
  , CorrectID := "CHEBI:15365", CorrectLabel := "aspirin", Notes := [] }

/-- A comparator input row whose type column holds the null-like value NA. -/
def rowNullType : CRow :=
  [("query", "aspirin"), ("biolink_type", "NA")]

/-- A comparator input row for the query aspirin. -/
def rowAspirin : CRow :=
  [("query", "aspirin"), ("biolink_type", "Chemical")]

/-- A previously written output row for aspirin, as found in a continuation
file. -/
def contRowA : CRow :=
  [("query", "aspirin"), ("biolink_type", "Chemical"), ("nameres_id", "OLD:1")]

/-- A second continuation row for the same query text with a different
result. -/
def contRowB : CRow :=
  [("query", "aspirin"), ("biolink_type", "Chemical"), ("nameres_id", "NEW:2")]

/-- The spec's end-to-end example service response: one record with curie
UBERON:0002113 and label Kidney. -/
def nrKidneyHttp : NRRequest → NRResponse :=
  fun _ => { ok := true, results :=
    [ { curie := some "UBERON:0002113", label := some "Kidney", score := some "0.9" } ] }

/-- The spec's end-to-end example row. -/
def bKidney : Benchmark :=
  { Query := "kidney", Source := "", Typ := "", CorrectType := ""
  , CorrectID := "UBERON:0002113", CorrectLabel := "kidney", Notes := [] }

/-- The benchmark output row the kidney example produces (SAPBERT failing). -/
def outKidney : BenchOut :=
  { query := "kidney", source := "", provided_type := "", queried_type := ""
  , correct_type := "", correct_id := "UBERON:0002113", correct_label := "kidney", notes := ""
  , nameres_id_rank := some 1, nameres_label_rank := some 1
  , nameres_no_type_id_rank := some 1, nameres_no_type_label_rank := some 1
  , sapbert_id_rank := none, sapbert_label_rank := none
  , sapbert_no_type_id_rank := none, sapbert_no_type_label_rank := none }

/-- A benchmark row with an expected identifier but an empty expected
label. -/
def bNoLabel : Benchmark :=
  { Query := "thing", Source := "", Typ := "", CorrectType := ""
  , CorrectID := "X:1", CorrectLabel := "", Notes := [] }

/-- A NameRes oracle whose second response record has no label field. -/
def nrMixedHttp : NRRequest → NRResponse :=
  fun _ => { ok := true, results :=
    [ { curie := some "Y:2", label := some "other" }
    , { curie := some "Y:3" } ] }

/-- An output row where the NameRes and SAPBERT ranks differ: NameRes ranks
id 1, SAPBERT ranks id 2. -/
def outMixedRanks : BenchOut :=
  { query := "q", source := "", provided_type := "", queried_type := ""
  , correct_type := "", correct_id := "X:1", correct_label := "x", notes := ""
  , nameres_id_rank := some 1, nameres_label_rank := some 1
  , nameres_no_type_id_rank := some 1, nameres_no_type_label_rank := some 1
  , sapbert_id_rank := some 2, sapbert_label_rank := some 3
  , sapbert_no_type_id_rank := some 2, sapbert_no_type_label_rank := some 3 }

/-- The accumulators after processing that single row. -/
def statsMixed : Stats := benchStatsUpdate {} outMixedRanks

theorem rank_none_iff (q : String) (l : List String) :
    rank_str_in_list q l = none ↔ q ∉ l := by
  induction l with
  | nil => simp [rank_str_in_list]
  | cons x xs ih =>
    by_cases hx : x = q
    · simp [rank_str_in_list, hx]
    · simp [rank_str_in_list, hx, ih, Ne.symm hx]

theorem rank_some_iff (q : String) (l : List String) (k : Nat) :
    rank_str_in_list q l = some k ↔
      ∃ i, k = i + 1 ∧ l.get? i = some q ∧ ∀ j, j < i → l.get? j ≠ some q := by
  induction l generalizing k with
  | nil =>
    simp [rank_str_in_list]
  | cons x xs ih =>
    rw [rank_str_in_list]
    by_cases hx : x = q
    · subst hx
      rw [if_pos rfl]
      constructor
      · intro h
        have hk : k = 1 := (Option.some.inj h).symm
        exact ⟨0, by omega, by simp, fun j hj => absurd hj (Nat.not_lt_zero j)⟩
      · rintro ⟨i, hk, hget, hfirst⟩
        cases i with
        | zero => simp [hk]
        | succ i =>
          exact absurd (by simp : (x :: xs).get? 0 = some x) (hfirst 0 (Nat.succ_pos i))
    · rw [if_neg hx]
      constructor
      · intro h
        obtain ⟨r, hr, hrk⟩ := Option.map_eq_some'.mp h
        obtain ⟨i, hi, hget, hfirst⟩ := (ih r).mp hr
        refine ⟨i + 1, by omega, by simpa using hget, ?_⟩
        intro j hj
        cases j with
        | zero =>
          intro hc
          exact hx (by simpa using hc)
        | succ j =>
          simpa using hfirst j (by omega)
      · rintro ⟨i, hk, hget, hfirst⟩
        cases i with
        | zero =>
          exact absurd (by simpa using hget) hx
        | succ i =>
          have hr : rank_str_in_list q xs = some (i + 1) := by
            refine (ih (i + 1)).mpr ⟨i, rfl, by simpa using hget, ?_⟩
            intro j hj
            simpa using hfirst (j + 1) (by omega)
          rw [hr]
          simp [hk]

/-- C1: rank_str_in_list returns the 1-based position of the first occurrence
of the target when present, and None when absent. -/
theorem rank_str_in_list_correct (query : String) (items : List String) :
    (query ∉ items → rank_str_in_list query items = none) ∧
    (∀ k, items.get? k = some query → (∀ j, j < k → items.get? j ≠ some query) →
      rank_str_in_list query items = some (k + 1)) ∧
    (∀ k, rank_str_in_list query items = some k →
      ∃ i, k = i + 1 ∧ items.get? i = some query ∧ ∀ j, j < i → items.get? j ≠ some query) :=
  ⟨fun h => (rank_none_iff query items).mpr h,
   fun k hk hfirst => (rank_some_iff query items (k + 1)).mpr ⟨k, rfl, hk, hfirst⟩,
   fun k h => (rank_some_iff query items k).mp h⟩

theorem rank_str_in_list_correct_witness :
    rank_str_in_list "b" ["a", "b", "b"] = some 2 ∧ rank_str_in_list "c" ["a", "b"] = none := by
  constructor
  · refine (rank_str_in_list_correct "b" ["a", "b", "b"]).2.1 1 (by decide) ?_
    intro j hj
    have hj0 : j = 0 := by omega
    subst hj0
    decide
  · exact (rank_str_in_list_correct "c" ["a", "b"]).1 (by decide)

/-- C7: divide_to_str is total; a zero denominator yields the NA display
built without dividing, and a nonzero denominator yields the quotient
formatted with exactly three decimal digits, each branch echoing n/d. -/
theorem divide_to_str_total (n d : Int) :
    (d = 0 → divide_to_str n d = "NA (" ++ toString n ++ "/" ++ toString d ++ ")") ∧
    (d ≠ 0 → divide_to_str n d = format3 n d ++ " (" ++ toString n ++ "/" ++ toString d ++ ")" ∧
      ∃ intPart, format3 n d = intPart ++ "." ++ pad3 (div3dec n.natAbs d.natAbs % 1000) ∧
        (pad3 (div3dec n.natAbs d.natAbs % 1000)).length = 3) := by
  constructor
  · intro h
    simp [divide_to_str, h]
  · intro h
    refine ⟨by simp [divide_to_str, h], ?_⟩
    exact ⟨if (if n = 0 then decide (d < 0) else xor (decide (n < 0)) (decide (d < 0)))
        then "-" ++ toString (div3dec n.natAbs d.natAbs / 1000)
        else toString (div3dec n.natAbs d.natAbs / 1000), rfl, rfl⟩

theorem divide_to_str_total_witness :
    divide_to_str 1 0 = "NA (1/0)" ∧ divide_to_str 7 2 = "3.500 (7/2)" := by
  have h1 := (divide_to_str_total 1 0).1 rfl
  have h2 := ((divide_to_str_total 7 2).2 (by decide)).1
  constructor
  · rw [h1]; decide
  · rw [h2]; decide

/-- C2 counterexample: SAPBERTNEREngine.annotate called with limit 1 on a
response carrying two records returns both of them, so the returned list can
exceed the limit. -/
theorem annotate_limit_counterexample :
    (resultsOf (sapbert_annotate "naproxen" { biolink_type := "" } 1 spTwoHttp)).length = 2 ∧
    ¬ ((resultsOf (sapbert_annotate "naproxen" { biolink_type := "" } 1 spTwoHttp)).length ≤ 1) := by
  decide

/-- C2 amended: on a successful response each adapter returns one annotation
per response record, with no truncation to the limit argument; NameRes
forwards the limit into its request parameters, while the SAPBERT request
carries the fixed SAPBERT_COUNT and ignores the limit. -/
theorem annotate_length_eq_response (text : String) (props : Props) (limit : Nat)
    (nrHttp : NRRequest → NRResponse) (spHttp : SapRequest → SapResponse)
    (hnr : (nrHttp (nameres_request text props limit)).ok = true)
    (hsp : (spHttp (sapbert_request text props)).ok = true) :
    nameres_annotate text props limit nrHttp
      = Except.ok ((nrHttp (nameres_request text props limit)).results.map (nrToAnn text)) ∧
    (resultsOf (nameres_annotate text props limit nrHttp)).length
      = (nrHttp (nameres_request text props limit)).results.length ∧
    sapbert_annotate text props limit spHttp
      = Except.ok ((spHttp (sapbert_request text props)).results.map (sapToAnn text)) ∧
    (resultsOf (sapbert_annotate text props limit spHttp)).length
      = (spHttp (sapbert_request text props)).results.length ∧
    (nameres_request text props limit).limit = limit ∧
    (sapbert_request text props).count = SAPBERT_COUNT := by
  refine ⟨?_, ?_, ?_, ?_, rfl, rfl⟩
  · simp [nameres_annotate, hnr]
  · simp [nameres_annotate, hnr, resultsOf]
  · simp [sapbert_annotate, hsp]
  · simp [sapbert_annotate, hsp, resultsOf]

theorem annotate_length_eq_response_witness :
    (resultsOf (sapbert_annotate "naproxen" {} 1 spTwoHttp)).length = 2 := by
  have h := annotate_length_eq_response "naproxen" {} 1
    (fun _ => { ok := true, results := [] }) spTwoHttp rfl rfl
  rw [h.2.2.2.1]
  decide

/-- C8: a failed HTTP response makes each adapter raise the generic runtime
error; the benchmark loop then processes the row anyway, with every rank the
not-found sentinel, and the run writes one step per input row regardless of
failures. -/
theorem service_failure_is_nonfatal :
    (∀ text props limit (nrHttp : NRRequest → NRResponse),
      (nrHttp (nameres_request text props limit)).ok = false →
      nameres_annotate text props limit nrHttp = Except.error "Could not contact NameRes") ∧
    (∀ text props limit (spHttp : SapRequest → SapResponse),
      (spHttp (sapbert_request text props)).ok = false →
      sapbert_annotate text props limit spHttp = Except.error "Server error from SAPBERT") ∧
    (∀ skip_types (b : Benchmark) nrHttp spHttp,
      b.Query ≠ "" → b.CorrectID ≠ "" →
      (∀ req, (nrHttp req).ok = false) → (∀ req, (spHttp req).ok = false) →
      ∃ out, (benchRowStep skip_types b nrHttp spHttp).written = some out ∧
        out.nameres_id_rank = none ∧ out.nameres_label_rank = none ∧
        out.nameres_no_type_id_rank = none ∧ out.nameres_no_type_label_rank = none ∧
        out.sapbert_id_rank = none ∧ out.sapbert_label_rank = none ∧
        out.sapbert_no_type_id_rank = none ∧ out.sapbert_no_type_label_rank = none) ∧
    (∀ skip_types rows, (benchRun skip_types rows).length = rows.length) := by
  refine ⟨?_, ?_, ?_, ?_⟩
  · intro text props limit nrHttp h
    simp [nameres_annotate, h]
  · intro text props limit spHttp h
    simp [sapbert_annotate, h]
  · intro skip_types b nrHttp spHttp hq hid hnr hsp
    have hnrT : ∀ w, benchNrResults skip_types b w nrHttp = [] := by
      intro w
      simp [benchNrResults, nameres_annotate, resultsOf, hnr]
    have hspT : ∀ w, benchSpResults skip_types b w spHttp = [] := by
      intro w
      simp [benchSpResults, sapbert_annotate, resultsOf, hsp]
    refine ⟨{ query := b.Query, source := b.Source, provided_type := b.Typ
            , queried_type := benchQueriedType skip_types b, correct_type := b.CorrectType
            , correct_id := b.CorrectID, correct_label := b.CorrectLabel, notes := benchNotes b
            , nameres_id_rank := none, nameres_label_rank := none
            , nameres_no_type_id_rank := none, nameres_no_type_label_rank := none
            , sapbert_id_rank := none, sapbert_label_rank := none
            , sapbert_no_type_id_rank := none, sapbert_no_type_label_rank := none },
      ?_, rfl, rfl, rfl, rfl, rfl, rfl, rfl, rfl⟩
    simp [benchRowStep, hq, hid, hnrT, hspT, idRankOf, labelRankOf, rank_str_in_list]
  · intro skip_types rows
    simp [benchRun]

/-- C3: the benchmark summary's SAPBERT average-rank lines are computed from
the NameRes accumulators (source lines 250, 251, 255, 256), not SAPBERT's
own.  After one processed row ranking NameRes id 1 and SAPBERT id 2, line 13
of the summary prints the SAPBERT average as 1.000 from the NameRes counters,
while SAPBERT's own accumulators hold total 2 and count 1. -/
theorem sapbert_average_uses_nameres_stats :
    statsMixed.sapbert_total_id_rank = 2 ∧ statsMixed.sapbert_count_id_rank = 1 ∧
    statsMixed.nameres_total_id_rank = 1 ∧ statsMixed.nameres_count_id_rank = 1 ∧
    (benchSummary statsMixed 1).get? 13 = some "\tSAPBERT: 1.000 (1/1)" ∧
    divide_to_str 2 1 = "2.000 (2/1)" ∧
    (benchSummary statsMixed 1).get? 13
      ≠ some ("\tSAPBERT: "
          ++ divide_to_str statsMixed.sapbert_total_id_rank statsMixed.sapbert_count_id_rank) := by
  decide

/-- C5: a type value whose stripped lowercased form is null-like reaches no
annotate call: every call either CLI issues for such a row carries the empty
biolink_type hint. -/
theorem null_type_never_sent (t : String) (h : isNullType t = true) :
    (∀ skip_types (b : Benchmark) nrHttp spHttp, b.Typ = t →
      ((benchRowStep skip_types b nrHttp spHttp).calls.all (fun c => c.biolink_type == "")) = true) ∧
    (∀ q bt cache (row : CRow) nrHttp spHttp, lookupField bt row = some t →
      ((comparatorStep q bt cache row nrHttp spHttp).calls.all (fun c => c.biolink_type == "")) = true) := by
  have hlm : llmLookup "" = none := by decide
  constructor
  · intro st b nrHttp spHttp hb
    have hqt : benchQueriedType st b = "" := by
      simp [benchQueriedType, hb, h]
    rw [benchRowStep]
    by_cases h1 : b.Query = ""
    · simp [h1]
    · by_cases h2 : (decide (b.CorrectID = "") && decide (b.CorrectLabel = "")) = true
      · simp [h1, h2]
      · simp [h1, h2, hqt]
  · intro q bt cache row nrHttp spHttp hbt
    rw [comparatorStep]
    cases hq : lookupField q row with
    | none => simp
    | some text =>
      cases hc : cache text with
      | some cached => simp [hc]
      | none =>
        rw [hbt]
        simp [h, hlm, hc]

theorem null_type_never_sent_witness :
    isNullType "NA" = true ∧
    ((benchRowStep false bNullType nrFailHttp spFailHttp).calls.all
      (fun c => c.biolink_type == "")) = true ∧
    ((comparatorStep "query" "biolink_type" (fun _ => none) rowNullType nrFailHttp spFailHttp).calls.all
      (fun c => c.biolink_type == "")) = true := by
  refine ⟨by decide, ?_, ?_⟩
  · exact (null_type_never_sent "NA" (by decide)).1 false bNullType nrFailHttp spFailHttp rfl
  · exact (null_type_never_sent "NA" (by decide)).2 "query" "biolink_type" (fun _ => none)
      rowNullType nrFailHttp spFailHttp (by decide)

/-- C4: a comparator row whose query text is cached is emitted exactly as the
cached row, and no annotate call is made for it. -/
theorem comparator_cache_hit (q bt text : String) (cache : String → Option CRow)
    (row cached : CRow) (nrHttp : NRRequest → NRResponse) (spHttp : SapRequest → SapResponse)
    (h1 : lookupField q row = some text) (h2 : cache text = some cached) :
    comparatorStep q bt cache row nrHttp spHttp = { written := some cached, calls := [] } := by
  simp only [comparatorStep, h1, h2]

theorem comparator_cache_hit_witness :
    comparatorStep "query" "biolink_type" (buildCache "query" [contRowA]) rowAspirin
      nrFailHttp spFailHttp = { written := some contRowA, calls := [] } :=
  comparator_cache_hit "query" "biolink_type" "aspirin" (buildCache "query" [contRowA])
    rowAspirin contRowA nrFailHttp spFailHttp (by decide) (by decide)

theorem buildCache_append (q v : String) (rs : List CRow) (r : CRow) :
    buildCache q (rs ++ [r]) v =
      match lookupField q r with
      | none => buildCache q rs v
      | some w => if v = w then some r else buildCache q rs v := by
  rw [buildCache, buildCache, List.foldl_append]
  simp only [List.foldl_cons, List.foldl_nil]
  cases hr : lookupField q r <;> rfl

/-- C9: the continuation cache keeps, for each query text, the last row of
the continuation file carrying that text in its query column (rows without
the column are skipped), and a later input row with that text emits exactly
that surviving row with no annotate calls. -/
theorem continuation_cache_last_wins (q v : String) (rows : List CRow) :
    buildCache q rows v = rows.reverse.find? (fun r => lookupField q r == some v) ∧
    (∀ bt (row cached : CRow) nrHttp spHttp, lookupField q row = some v →
      buildCache q rows v = some cached →
      comparatorStep q bt (buildCache q rows) row nrHttp spHttp
        = { written := some cached, calls := [] }) := by
  constructor
  · induction rows using List.reverseRecOn with
    | nil => rfl
    | append_singleton rs r ih =>
      rw [buildCache_append]
      rw [List.reverse_append]
      cases hr : lookupField q r with
      | none =>
        simp only [List.reverse_cons, List.reverse_nil, List.nil_append, List.singleton_append,
          List.find?]
        have hpr : (lookupField q r == some v) = false := by
          simp [hr]
        rw [hpr]
        exact ih
      | some w =>
        simp only [List.reverse_cons, List.reverse_nil, List.nil_append, List.singleton_append,
          List.find?]
        by_cases hvw : v = w
        · subst hvw
          have hpr : (lookupField q r == some v) = true := by
            simp [hr]
          rw [hpr, if_pos rfl]
        · have hpr : (lookupField q r == some v) = false := by
            simp [hr]
            exact fun hc => hvw hc.symm
          rw [hpr, if_neg hvw]
          exact ih
  · intro bt row cached nrHttp spHttp h1 h2
    simp only [comparatorStep, h1, h2]

theorem continuation_cache_last_wins_witness :
    buildCache "query" [contRowA, contRowB] "aspirin" = some contRowB ∧
    comparatorStep "query" "biolink_type" (buildCache "query" [contRowA, contRowB]) rowAspirin
      nrFailHttp spFailHttp = { written := some contRowB, calls := [] } := by
  have h := continuation_cache_last_wins "query" "aspirin" [contRowA, contRowB]
  have hc : buildCache "query" [contRowA, contRowB] "aspirin" = some contRowB := by
    rw [h.1]
    decide
  exact ⟨hc, h.2 "biolink_type" rowAspirin contRowB nrFailHttp spFailHttp (by decide) hc⟩

theorem service_failure_is_nonfatal_witness :
    nameres_annotate "aspirin" {} 10 nrFailHttp = Except.error "Could not contact NameRes" ∧
    (∃ out, (benchRowStep false bAspirin nrFailHttp spFailHttp).written = some out ∧
      out.nameres_id_rank = none ∧ out.nameres_label_rank = none ∧
      out.nameres_no_type_id_rank = none ∧ out.nameres_no_type_label_rank = none ∧
      out.sapbert_id_rank = none ∧ out.sapbert_label_rank = none ∧
      out.sapbert_no_type_id_rank = none ∧ out.sapbert_no_type_label_rank = none) ∧
    (benchRun false [(bAspirin, nrFailHttp, spFailHttp)]).length = 1 := by
  refine ⟨service_failure_is_nonfatal.1 "aspirin" {} 10 nrFailHttp rfl, ?_, ?_⟩
  · refine service_failure_is_nonfatal.2.2.1 false bAspirin nrFailHttp spFailHttp
      (by decide) (by decide) (fun req => rfl) (fun req => rfl)
  · exact service_failure_is_nonfatal.2.2.2 false [(bAspirin, nrFailHttp, spFailHttp)]

theorem lowerStr_eq_empty_iff (s : String) : lowerStr s = "" ↔ s = "" := by
  cases s with
  | mk data =>
    constructor
    · intro h
      have hd : data.map Char.toLower = [] := congrArg String.data h
      have hn : data = [] := List.map_eq_nil.mp hd
      rw [hn]
    · intro h
      rw [h]
      exact rfl

theorem benchRowStep_written (skip_types : Bool) (b : Benchmark)
    (nrHttp : NRRequest → NRResponse) (spHttp : SapRequest → SapResponse)
    (hq : b.Query ≠ "") (hskip : ¬(b.CorrectID = "" ∧ b.CorrectLabel = "")) :
    (benchRowStep skip_types b nrHttp spHttp).written = some
      { query := b.Query
        source := b.Source
        provided_type := b.Typ
        queried_type := benchQueriedType skip_types b
        correct_type := b.CorrectType
        correct_id := b.CorrectID
        correct_label := b.CorrectLabel
        notes := benchNotes b
        nameres_id_rank := idRankOf b.CorrectID (benchNrResults skip_types b true nrHttp)
        nameres_label_rank := labelRankOf b.CorrectLabel (benchNrResults skip_types b true nrHttp)
        nameres_no_type_id_rank := idRankOf b.CorrectID (benchNrResults skip_types b false nrHttp)
        nameres_no_type_label_rank := labelRankOf b.CorrectLabel (benchNrResults skip_types b false nrHttp)
        sapbert_id_rank := idRankOf b.CorrectID (benchSpResults skip_types b true spHttp)
        sapbert_label_rank := labelRankOf b.CorrectLabel (benchSpResults skip_types b true spHttp)
        sapbert_no_type_id_rank := idRankOf b.CorrectID (benchSpResults skip_types b false spHttp)
        sapbert_no_type_label_rank := labelRankOf b.CorrectLabel (benchSpResults skip_types b false spHttp) } := by
  rw [benchRowStep]
  rw [if_neg hq]
  have h2 : (decide (b.CorrectID = "") && decide (b.CorrectLabel = "")) ≠ true := by
    intro hc
    rcases Bool.and_eq_true _ _ |>.mp hc with ⟨ha, hb⟩
    exact hskip ⟨of_decide_eq_true ha, of_decide_eq_true hb⟩
  rw [if_neg h2]

/-- C6: per processed benchmark row, the identifier rank compares the expected
identifier exactly against each result id (the ranked result's id is
string-equal to the expected one), while the label rank lowercases the
expected label and every result label (missing read as empty) first, so it is
invariant under case changes of the expected label. -/
theorem bench_rank_matching (skip_types : Bool) (b : Benchmark)
    (nrHttp : NRRequest → NRResponse) (spHttp : SapRequest → SapResponse) (out : BenchOut)
    (h : (benchRowStep skip_types b nrHttp spHttp).written = some out) :
    (out.nameres_id_rank
        = rank_str_in_list b.CorrectID ((benchNrResults skip_types b true nrHttp).map Ann.id)) ∧
    (out.nameres_label_rank
        = rank_str_in_list (lowerStr b.CorrectLabel)
            ((benchNrResults skip_types b true nrHttp).map (fun a => lowerStr (a.label.getD "")))) ∧
    (∀ l2, lowerStr l2 = lowerStr b.CorrectLabel →
      rank_str_in_list (lowerStr l2)
          ((benchNrResults skip_types b true nrHttp).map (fun a => lowerStr (a.label.getD "")))
        = out.nameres_label_rank) ∧
    (∀ k, out.nameres_id_rank = some (k + 1) →
      ∃ a, (benchNrResults skip_types b true nrHttp).get? k = some a ∧ a.id = b.CorrectID) := by
  by_cases hq : b.Query = ""
  · rw [benchRowStep, if_pos hq] at h
    exact absurd h (by simp)
  · by_cases hskip : b.CorrectID = "" ∧ b.CorrectLabel = ""
    · rw [benchRowStep, if_neg hq] at h
      rw [if_pos (by simp [hskip.1, hskip.2])] at h
      exact absurd h (by simp)
    · rw [benchRowStep_written skip_types b nrHttp spHttp hq hskip] at h
      obtain rfl : _ = out := Option.some.inj h
      refine ⟨rfl, rfl, ?_, ?_⟩
      · intro l2 hl
        simp only [labelRankOf]
        rw [hl]
      · intro k hk
        simp only [idRankOf] at hk
        obtain ⟨i, hi, hget, _⟩ := (rank_some_iff _ _ _).mp hk
        obtain rfl : i = k := by omega
        rw [List.get?_map] at hget
        obtain ⟨a, ha, hid⟩ := Option.map_eq_some'.mp hget
        exact ⟨a, ha, hid⟩

theorem bench_rank_matching_witness :
    outKidney.nameres_id_rank
      = rank_str_in_list bKidney.CorrectID
          ((benchNrResults false bKidney true nrKidneyHttp).map Ann.id) ∧
    outKidney.nameres_id_rank = some 1 ∧ outKidney.nameres_label_rank = some 1 ∧
    (benchRowStep false bKidney nrKidneyHttp spFailHttp).written = some outKidney := by
  have h := bench_rank_matching false bKidney nrKidneyHttp spFailHttp outKidney (by decide)
  exact ⟨h.1, by decide, by decide, by decide⟩

/-- C10: a benchmark row with a nonempty expected identifier and an empty
expected label is processed, and its label rank is the 1-based position of
the first result whose label is missing or empty, when one exists. -/
theorem empty_label_spurious_match (skip_types : Bool) (b : Benchmark)
    (nrHttp : NRRequest → NRResponse) (spHttp : SapRequest → SapResponse)
    (hq : b.Query ≠ "") (hid : b.CorrectID ≠ "") (hlab : b.CorrectLabel = "")
    (i : Nat) (a : Ann)
    (hi : (benchNrResults skip_types b true nrHttp).get? i = some a)
    (ha : a.label.getD "" = "")
    (hfirst : ∀ j aj, j < i → (benchNrResults skip_types b true nrHttp).get? j = some aj →
      aj.label.getD "" ≠ "") :
    ∃ out, (benchRowStep skip_types b nrHttp spHttp).written = some out ∧
      out.nameres_label_rank = some (i + 1) := by
  have hw := benchRowStep_written skip_types b nrHttp spHttp hq (fun hc => hid hc.1)
  refine ⟨_, hw, ?_⟩
  simp only [labelRankOf, hlab]
  have hempty : lowerStr "" = "" := rfl
  rw [hempty]
  refine (rank_some_iff _ _ _).mpr ⟨i, rfl, ?_, ?_⟩
  · rw [List.get?_map, hi]
    have hla : lowerStr (a.label.getD "") = "" := by
      rw [ha]
      exact rfl
    simp [hla]
  · intro j hj hc
    rw [List.get?_map] at hc
    obtain ⟨aj, haj, hlj⟩ := Option.map_eq_some'.mp hc
    exact hfirst j aj hj haj ((lowerStr_eq_empty_iff _).mp hlj)

theorem empty_label_spurious_match_witness :
    ∃ out, (benchRowStep false bNoLabel nrMixedHttp spFailHttp).written = some out ∧
      out.nameres_label_rank = some 2 := by
  refine empty_label_spurious_match false bNoLabel nrMixedHttp spFailHttp
    (by decide) (by decide) rfl 1 (nrToAnn "thing" { curie := some "Y:3" })
    (by decide) (by decide) ?_
  intro j aj hj hget
  have hj0 : j = 0 := by omega
  subst hj0
  have hl : benchNrResults false bNoLabel true nrMixedHttp
      = [ nrToAnn "thing" { curie := some "Y:2", label := some "other" }
        , nrToAnn "thing" { curie := some "Y:3" } ] := by decide
  rw [hl] at hget
  obtain rfl : _ = aj := Option.some.inj hget
  decide

end NERBench
